import Mathlib

/-!
Shallow embedding of the platform-triple parsing utility of the napi-rs CLI
(`crates/cli/src/util.rs`) and proofs about it.

The embedded code is:
  * the constant target lists `AVAILABLE_TARGETS` and `DEFAULT_TARGETS`;
  * the `NodeArch` enum, its `from_str` table and its `Display` impl;
  * the `NodePlatform` enum, its `from_str` fallback map and its `Display` impl;
  * the `PlatformDetail` struct and its `From<&str>` conversion.

Rust panics (the out-of-bounds vector index `parts[2]` and the explicit
panic in `unwrap_or_else` for an unsupported cpu) are modelled as the
`ParsePanic` error type of an `Except`: the Rust code aborts the process at
those points, and the model records which abort fired and with which data.
Rust's `triple.split('-')` is modelled by `splitDash`, a character-level
split that keeps empty segments and returns `[""]` on the empty string,
exactly as `str::split` does.
-/

namespace NapiCli

/-- `NodeArch` enum from `util.rs` lines 53-65. -/
inductive NodeArch
| x32
| x64
| ia32
| arm
| arm64
| mips
| mipsel
| ppc
| ppc64
| s390
| s390x
deriving DecidableEq, Repr

/-- `NodeArch::from_str`, `util.rs` lines 67-84: the fixed, case-sensitive
cpu table.  Note the source maps the misspelling `"arrch64"` (not
`"aarch64"`) to `arm64`. -/
def NodeArch.from_str (s : String) : Option NodeArch :=
if s = "x32" then some NodeArch.x32
else if s = "x86_64" then some NodeArch.x64
else if s = "i686" then some NodeArch.ia32
else if s = "armv7" then some NodeArch.arm
else if s = "arrch64" then some NodeArch.arm64
else if s = "mips" then some NodeArch.mips
else if s = "mipsel" then some NodeArch.mipsel
else if s = "ppc" then some NodeArch.ppc
else if s = "ppc64" then some NodeArch.ppc64
else if s = "s390" then some NodeArch.s390
else if s = "s390x" then some NodeArch.s390x
else none

/-- `impl Display for NodeArch`, `util.rs` lines 86-102. -/
def NodeArch.toString : NodeArch → String
| NodeArch.x32 => "x32"
| NodeArch.x64 => "x64"
| NodeArch.ia32 => "ia32"
| NodeArch.arm => "arm"
| NodeArch.arm64 => "arm64"
| NodeArch.mips => "mips"
| NodeArch.mipsel => "mipsel"
| NodeArch.ppc => "ppc"
| NodeArch.ppc64 => "ppc64"
| NodeArch.s390 => "s390"
| NodeArch.s390x => "s390x"

/-- `NodePlatform` enum from `util.rs` lines 106-112; the `unknown`
variant preserves the raw system string. -/
inductive NodePlatform
| darwin
| freebsd
| openbsd
| win32
| unknown (s : String)
deriving DecidableEq, Repr

/-- `NodePlatform::from_str`, `util.rs` lines 114-124: total map with an
`unknown` fallback, never an error. -/
def NodePlatform.from_str (s : String) : NodePlatform :=
if s = "darwin" then NodePlatform.darwin
else if s = "freebsd" then NodePlatform.freebsd
else if s = "openbsd" then NodePlatform.openbsd
else if s = "windows" then NodePlatform.win32
else NodePlatform.unknown s

/-- `impl Display for NodePlatform`, `util.rs` lines 126-136. -/
def NodePlatform.toString : NodePlatform → String
| NodePlatform.darwin => "darwin"
| NodePlatform.freebsd => "freebsd"
| NodePlatform.openbsd => "openbsd"
| NodePlatform.win32 => "win32"
| NodePlatform.unknown s => s

/-- `PlatformDetail` struct, `util.rs` lines 138-144. -/
structure PlatformDetail where
  triple : String
  platform_abi : String
  arch : NodeArch
  platform : NodePlatform
  abi : Option String
deriving DecidableEq, Repr

/-- The two ways `From<&str> for PlatformDetail` can abort the process:
`indexOutOfBounds len idx` models the Rust panic raised by the vector
index `parts[idx]` when `idx >= parts.len()`, recording the vector length
and the index; `unsupportedCpuArch cpu` models the explicit
`unwrap_or_else` panic `"unsupported cpu arch {cpu}"` at line 156. -/
inductive ParsePanic
| indexOutOfBounds (len idx : Nat)
| unsupportedCpuArch (cpu : String)
deriving DecidableEq, Repr

instance {ε α : Type} [DecidableEq ε] [DecidableEq α] : DecidableEq (Except ε α) := fun x y =>
match x, y with
| Except.ok a, Except.ok b =>
  if h : a = b then Decidable.isTrue (by rw [h])
  else Decidable.isFalse (by intro hc; cases hc; exact h rfl)
| Except.error a, Except.error b =>
  if h : a = b then Decidable.isTrue (by rw [h])
  else Decidable.isFalse (by intro hc; cases hc; exact h rfl)
| Except.ok _, Except.error _ => Decidable.isFalse (by intro hc; cases hc)
| Except.error _, Except.ok _ => Decidable.isFalse (by intro hc; cases hc)

/-- Character-level worker for `splitDash`: splits a character list at
every `'-'`, keeping empty chunks. -/
def splitDashAux : List Char → List Char → List (List Char)
| [], acc => [acc.reverse]
| c :: cs, acc =>
  if c = '-' then acc.reverse :: splitDashAux cs []
  else splitDashAux cs (c :: acc)

/-- Model of Rust's `triple.split('-').collect::<Vec<_>>()` (`util.rs`
line 148): empty segments are kept and the result is never empty (the
empty string splits to `[""]`). -/
def splitDash (s : String) : List String :=
(splitDashAux s.data []).map (fun cs => String.mk cs)

/-- Rust vector indexing `parts[i]`: the element when `i` is in bounds,
and the index-out-of-bounds panic otherwise. -/
def listIndex (parts : List String) (i : Nat) : Except ParsePanic String :=
match parts.get? i with
| some x => Except.ok x
| none => Except.error (ParsePanic.indexOutOfBounds parts.length i)

/-- Body of `From<&str> for PlatformDetail` (`util.rs` lines 146-168)
after the split, parameterised by the split result `parts`.
The source reads `parts[0]` and `parts[2]` unconditionally in both arms of
the `parts.len() == 2` branch, so both reads go through `listIndex`; the
abi is `None` in the two-segment arm and `parts.get(3)` (a checked,
`Option`-returning access) otherwise.  `platform_abi` is assembled from
the `Display` strings exactly as the two `format!` calls do. -/
def PlatformDetail.fromParts (triple : String) (parts : List String) : Except ParsePanic PlatformDetail :=
match listIndex parts 0 with
| Except.error e => Except.error e
| Except.ok cpu =>
  match listIndex parts 2 with
  | Except.error e => Except.error e
  | Except.ok sys =>
    let abi : Option String := if parts.length = 2 then none else parts.get? 3
    let platform := NodePlatform.from_str sys
    match NodeArch.from_str cpu with
    | none => Except.error (ParsePanic.unsupportedCpuArch cpu)
    | some arch =>
      Except.ok {
        triple := triple
        platform_abi :=
          match abi with
          | some a => NodePlatform.toString platform ++ "-" ++ NodeArch.toString arch ++ "-" ++ a
          | none => NodePlatform.toString platform ++ "-" ++ NodeArch.toString arch
        arch := arch
        platform := platform
        abi := abi }

/-- `From<&str> for PlatformDetail`, `util.rs` lines 146-168. -/
def PlatformDetail.fromTriple (triple : String) : Except ParsePanic PlatformDetail :=
PlatformDetail.fromParts triple (splitDash triple)

/-- `AVAILABLE_TARGETS`, `util.rs` lines 14-28. -/
def AVAILABLE_TARGETS : List String :=
["aarch64-apple-darwin",
 "aarch64-linux-android",
 "aarch64-unknown-linux-gnu",
 "aarch64-unknown-linux-musl",
 "aarch64-pc-windows-msvc",
 "x86_64-apple-darwin",
 "x86_64-pc-windows-msvc",
 "x86_64-unknown-linux-gnu",
 "x86_64-unknown-linux-musl",
 "x86_64-unknown-freebsd",
 "i686-pc-windows-msvc",
 "armv7-unknown-linux-gnueabihf",
 "armv7-linux-androideabi"]

/-- `DEFAULT_TARGETS`, `util.rs` lines 30-34. -/
def DEFAULT_TARGETS : List String :=
["x86_64-apple-darwin",
 "x86_64-pc-windows-msvc",
 "x86_64-unknown-linux-gnu"]

/-- The observable output fields of a parse other than the stored original
triple string: architecture, platform, abi, and `platform_abi`. -/
def PlatformDetail.obs (d : PlatformDetail) : NodeArch × NodePlatform × Option String × String :=
(d.arch, d.platform, d.abi, d.platform_abi)

/-- Concrete descriptor produced by parsing `"x86_64-unknown-linux-musl"`,
used to instantiate the `platform_abi` invariant on a closed input. -/
def muslDetail : PlatformDetail :=
{ triple := "x86_64-unknown-linux-musl"
  platform_abi := "linux-x64-musl"
  arch := NodeArch.x64
  platform := NodePlatform.unknown "linux"
  abi := some "musl" }

/-! ### Helper lemmas -/

/-- The split worker never returns the empty list. -/
theorem splitDashAux_ne_nil (cs acc : List Char) : splitDashAux cs acc ≠ [] := by
  induction cs generalizing acc with
  | nil => simp [splitDashAux]
  | cons c cs ih =>
    simp only [splitDashAux]
    split
    · simp
    · exact ih _

/-- Splitting any string yields at least one segment, as with Rust's
`str::split`. -/
theorem splitDash_ne_nil (s : String) : splitDash s ≠ [] := by
  simp only [splitDash, ne_eq, List.map_eq_nil_iff]
  exact splitDashAux_ne_nil _ _

/-- A list of length at least 3 starts with three explicit elements. -/
theorem exists_cons3_of_len (l : List String) (h : 3 ≤ l.length) :
    ∃ p0 p1 p2 rest, l = p0 :: p1 :: p2 :: rest := by
  rcases l with _ | ⟨a, _ | ⟨b, _ | ⟨c, rest⟩⟩⟩
  · simp at h
  · simp at h
  · simp at h
  · exact ⟨a, b, c, rest, rfl⟩

/-- Evaluation of the conversion body on a split with at least three
segments: the vendor segment `v` does not appear on the right-hand side,
the abi is segment 3 when present, and failure happens exactly when the
cpu segment is not in the arch table. -/
theorem fromParts_cons3 (t cpu v sys : String) (rest : List String) :
    PlatformDetail.fromParts t (cpu :: v :: sys :: rest) =
      match NodeArch.from_str cpu with
      | none => Except.error (ParsePanic.unsupportedCpuArch cpu)
      | some a =>
        Except.ok {
          triple := t
          platform_abi :=
            match rest.get? 0 with
            | some ab =>
              NodePlatform.toString (NodePlatform.from_str sys) ++ "-" ++ NodeArch.toString a ++ "-" ++ ab
            | none =>
              NodePlatform.toString (NodePlatform.from_str sys) ++ "-" ++ NodeArch.toString a
          arch := a
          platform := NodePlatform.from_str sys
          abi := rest.get? 0 } := by
  rfl

/-- Any input whose split has fewer than three segments makes the
conversion abort with the out-of-bounds read of `parts[2]`. -/
theorem fromTriple_oob_of_short (t : String) (h : (splitDash t).length < 3) :
    PlatformDetail.fromTriple t =
      Except.error (ParsePanic.indexOutOfBounds (splitDash t).length 2) := by
  show PlatformDetail.fromParts t (splitDash t) = _
  rcases hp : splitDash t with _ | ⟨a, _ | ⟨b, _ | ⟨c, rest⟩⟩⟩
  · exact absurd hp (splitDash_ne_nil t)
  · rfl
  · rfl
  · rw [hp] at h; simp only [List.length_cons] at h; omega

/-- A successful lookup of the cpu segment forces the parse of a triple
with at least three segments to succeed with that architecture. -/
theorem arch_of_parse (t cpu : String) (a : NodeArch)
    (h0 : (splitDash t).get? 0 = some cpu)
    (hlen : 3 ≤ (splitDash t).length)
    (ha : NodeArch.from_str cpu = some a) :
    ∃ d, PlatformDetail.fromTriple t = Except.ok d ∧ d.arch = a := by
  obtain ⟨p0, p1, p2, rest, hp⟩ := exists_cons3_of_len _ hlen
  rw [hp] at h0
  simp only [List.get?, Option.some.injEq] at h0
  subst h0
  have hv := fromParts_cons3 t p0 p1 p2 rest
  simp only [ha] at hv
  exact ⟨_, by rw [PlatformDetail.fromTriple, hp]; exact hv, rfl⟩

/-! ### Claim theorems -/

/-- C1: on every input whose split has fewer than 3 dash-separated
segments, the conversion does NOT fail with a recoverable malformed-triple
error: it aborts with the out-of-bounds panic of the vector read
`parts[2]`.  This exhibits the code bug behind the claim: the code has no
`MalformedTriple` error at all, and `"x86_64-unknown"` crashes it. -/
theorem c1_short_input_crashes_oob (t : String) (h : (splitDash t).length < 3) :
    PlatformDetail.fromTriple t =
      Except.error (ParsePanic.indexOutOfBounds (splitDash t).length 2) :=
  fromTriple_oob_of_short t h

/-- C1 witness: the concrete failing input `"x86_64-unknown"` splits into
2 segments and crashes with the out-of-bounds read of index 2. -/
theorem c1_short_input_crashes_oob_witness :
    (splitDash "x86_64-unknown").length < 3 ∧
      PlatformDetail.fromTriple "x86_64-unknown" =
        Except.error (ParsePanic.indexOutOfBounds (splitDash "x86_64-unknown").length 2) :=
  ⟨by decide, c1_short_input_crashes_oob "x86_64-unknown" (by decide)⟩

/-- C2 counterexample: `"x86_64-unknown"` is a triple by the spec's data
model (2-4 dash-separated segments) and its first segment `"x86_64"` is
in the cpu table, yet parsing it yields no architecture at all: it aborts
in segment extraction with the out-of-bounds read of `parts[2]`. -/
theorem c2_cpu_table_counterexample :
    (splitDash "x86_64-unknown").get? 0 = some "x86_64" ∧
    NodeArch.from_str "x86_64" = some NodeArch.x64 ∧
    PlatformDetail.fromTriple "x86_64-unknown" =
      Except.error (ParsePanic.indexOutOfBounds 2 2) := by
  decide

/-- C2: for each cpu string of the fixed table — including the
misspelling `"arrch64"` — parsing a triple whose first segment is that
string (and which has at least 3 segments, so that segment extraction
succeeds) yields an architecture whose display string is the documented
canonical short name. -/
theorem c2_cpu_table_display :
    (∀ t, (splitDash t).get? 0 = some "x32" → 3 ≤ (splitDash t).length →
      ∃ d, PlatformDetail.fromTriple t = Except.ok d ∧ NodeArch.toString d.arch = "x32") ∧
    (∀ t, (splitDash t).get? 0 = some "x86_64" → 3 ≤ (splitDash t).length →
      ∃ d, PlatformDetail.fromTriple t = Except.ok d ∧ NodeArch.toString d.arch = "x64") ∧
    (∀ t, (splitDash t).get? 0 = some "i686" → 3 ≤ (splitDash t).length →
      ∃ d, PlatformDetail.fromTriple t = Except.ok d ∧ NodeArch.toString d.arch = "ia32") ∧
    (∀ t, (splitDash t).get? 0 = some "armv7" → 3 ≤ (splitDash t).length →
      ∃ d, PlatformDetail.fromTriple t = Except.ok d ∧ NodeArch.toString d.arch = "arm") ∧
    (∀ t, (splitDash t).get? 0 = some "arrch64" → 3 ≤ (splitDash t).length →
      ∃ d, PlatformDetail.fromTriple t = Except.ok d ∧ NodeArch.toString d.arch = "arm64") ∧
    (∀ t, (splitDash t).get? 0 = some "mips" → 3 ≤ (splitDash t).length →
      ∃ d, PlatformDetail.fromTriple t = Except.ok d ∧ NodeArch.toString d.arch = "mips") ∧
    (∀ t, (splitDash t).get? 0 = some "mipsel" → 3 ≤ (splitDash t).length →
      ∃ d, PlatformDetail.fromTriple t = Except.ok d ∧ NodeArch.toString d.arch = "mipsel") ∧
    (∀ t, (splitDash t).get? 0 = some "ppc" → 3 ≤ (splitDash t).length →
      ∃ d, PlatformDetail.fromTriple t = Except.ok d ∧ NodeArch.toString d.arch = "ppc") ∧
    (∀ t, (splitDash t).get? 0 = some "ppc64" → 3 ≤ (splitDash t).length →
      ∃ d, PlatformDetail.fromTriple t = Except.ok d ∧ NodeArch.toString d.arch = "ppc64") ∧
    (∀ t, (splitDash t).get? 0 = some "s390" → 3 ≤ (splitDash t).length →
      ∃ d, PlatformDetail.fromTriple t = Except.ok d ∧ NodeArch.toString d.arch = "s390") ∧
    (∀ t, (splitDash t).get? 0 = some "s390x" → 3 ≤ (splitDash t).length →
      ∃ d, PlatformDetail.fromTriple t = Except.ok d ∧ NodeArch.toString d.arch = "s390x") := by
  refine ⟨?_, ?_, ?_, ?_, ?_, ?_, ?_, ?_, ?_, ?_, ?_⟩
  all_goals
    intro t h0 hlen
    obtain ⟨d, hd, ha⟩ := arch_of_parse t _ _ h0 hlen rfl
    exact ⟨d, hd, by rw [ha]; rfl⟩

/-- C2 witness: each of the 11 table rows exercised on a concrete triple
with that cpu as its first segment. -/
theorem c2_cpu_table_display_witness :
    (∃ d, PlatformDetail.fromTriple "x32-v-sys" = Except.ok d ∧ NodeArch.toString d.arch = "x32") ∧
    (∃ d, PlatformDetail.fromTriple "x86_64-v-sys" = Except.ok d ∧ NodeArch.toString d.arch = "x64") ∧
    (∃ d, PlatformDetail.fromTriple "i686-v-sys" = Except.ok d ∧ NodeArch.toString d.arch = "ia32") ∧
    (∃ d, PlatformDetail.fromTriple "armv7-v-sys" = Except.ok d ∧ NodeArch.toString d.arch = "arm") ∧
    (∃ d, PlatformDetail.fromTriple "arrch64-v-sys" = Except.ok d ∧ NodeArch.toString d.arch = "arm64") ∧
    (∃ d, PlatformDetail.fromTriple "mips-v-sys" = Except.ok d ∧ NodeArch.toString d.arch = "mips") ∧
    (∃ d, PlatformDetail.fromTriple "mipsel-v-sys" = Except.ok d ∧ NodeArch.toString d.arch = "mipsel") ∧
    (∃ d, PlatformDetail.fromTriple "ppc-v-sys" = Except.ok d ∧ NodeArch.toString d.arch = "ppc") ∧
    (∃ d, PlatformDetail.fromTriple "ppc64-v-sys" = Except.ok d ∧ NodeArch.toString d.arch = "ppc64") ∧
    (∃ d, PlatformDetail.fromTriple "s390-v-sys" = Except.ok d ∧ NodeArch.toString d.arch = "s390") ∧
    (∃ d, PlatformDetail.fromTriple "s390x-v-sys" = Except.ok d ∧ NodeArch.toString d.arch = "s390x") :=
  ⟨c2_cpu_table_display.1 _ (by decide) (by decide),
   c2_cpu_table_display.2.1 _ (by decide) (by decide),
   c2_cpu_table_display.2.2.1 _ (by decide) (by decide),
   c2_cpu_table_display.2.2.2.1 _ (by decide) (by decide),
   c2_cpu_table_display.2.2.2.2.1 _ (by decide) (by decide),
   c2_cpu_table_display.2.2.2.2.2.1 _ (by decide) (by decide),
   c2_cpu_table_display.2.2.2.2.2.2.1 _ (by decide) (by decide),
   c2_cpu_table_display.2.2.2.2.2.2.2.1 _ (by decide) (by decide),
   c2_cpu_table_display.2.2.2.2.2.2.2.2.1 _ (by decide) (by decide),
   c2_cpu_table_display.2.2.2.2.2.2.2.2.2.1 _ (by decide) (by decide),
   c2_cpu_table_display.2.2.2.2.2.2.2.2.2.2 _ (by decide) (by decide)⟩

/-- C3 counterexample: the 2-segment triple `"foo-bar"` has its cpu
segment `"foo"` outside the table, yet parsing does not fail with the
unsupported-architecture abort: the out-of-bounds read of `parts[2]`
fires first. -/
theorem c3_unsupported_arch_counterexample :
    (splitDash "foo-bar").get? 0 = some "foo" ∧
    NodeArch.from_str "foo" = none ∧
    PlatformDetail.fromTriple "foo-bar" = Except.error (ParsePanic.indexOutOfBounds 2 2) ∧
    PlatformDetail.fromTriple "foo-bar" ≠ Except.error (ParsePanic.unsupportedCpuArch "foo") := by
  decide

/-- C3 amended: for every triple with at least 3 dash-separated segments
whose first (cpu) segment is not in the fixed table, parsing fails with
the unsupported-architecture abort carrying the offending cpu string; in
particular `"aarch64-apple-darwin"` fails carrying `"aarch64"`. -/
theorem c3_unsupported_arch :
    (∀ t cpu, (splitDash t).get? 0 = some cpu → 3 ≤ (splitDash t).length →
      NodeArch.from_str cpu = none →
      PlatformDetail.fromTriple t = Except.error (ParsePanic.unsupportedCpuArch cpu)) ∧
    PlatformDetail.fromTriple "aarch64-apple-darwin" =
      Except.error (ParsePanic.unsupportedCpuArch "aarch64") := by
  constructor
  · intro t cpu h0 hlen ha
    obtain ⟨p0, p1, p2, rest, hp⟩ := exists_cons3_of_len _ hlen
    rw [hp] at h0
    simp only [List.get?, Option.some.injEq] at h0
    subst h0
    have hv := fromParts_cons3 t p0 p1 p2 rest
    simp only [ha] at hv
    rw [PlatformDetail.fromTriple, hp]
    exact hv
  · decide

/-- C3 witness: the amended universal statement applied to the concrete
unsupported cpu `"riscv64"`. -/
theorem c3_unsupported_arch_witness :
    PlatformDetail.fromTriple "riscv64-unknown-linux" =
      Except.error (ParsePanic.unsupportedCpuArch "riscv64") :=
  c3_unsupported_arch.1 "riscv64-unknown-linux" "riscv64" (by decide) (by decide) (by decide)

/-- C4: every successfully parsed descriptor satisfies the `platform_abi`
invariant: it is the platform and arch display strings joined by a dash,
with the abi appended after another dash when one is present. -/
theorem c4_platform_abi_invariant (t : String) (d : PlatformDetail)
    (h : PlatformDetail.fromTriple t = Except.ok d) :
    d.platform_abi =
      match d.abi with
      | some a =>
        NodePlatform.toString d.platform ++ "-" ++ NodeArch.toString d.arch ++ "-" ++ a
      | none => NodePlatform.toString d.platform ++ "-" ++ NodeArch.toString d.arch := by
  rcases Nat.lt_or_ge (splitDash t).length 3 with hl | hl
  · rw [fromTriple_oob_of_short t hl] at h
    exact Except.noConfusion h
  · obtain ⟨p0, p1, p2, rest, hp⟩ := exists_cons3_of_len _ hl
    rw [PlatformDetail.fromTriple, hp, fromParts_cons3] at h
    cases harch : NodeArch.from_str p0 with
    | none =>
      simp only [harch] at h
      exact Except.noConfusion h
    | some a =>
      simp only [harch] at h
      injection h with h'
      subst h'
      rfl

/-- C4 witness: the invariant instantiated on the descriptor parsed from
`"x86_64-unknown-linux-musl"`. -/
theorem c4_platform_abi_invariant_witness :
    muslDetail.platform_abi =
      match muslDetail.abi with
      | some a =>
        NodePlatform.toString muslDetail.platform ++ "-" ++
          NodeArch.toString muslDetail.arch ++ "-" ++ a
      | none =>
        NodePlatform.toString muslDetail.platform ++ "-" ++
          NodeArch.toString muslDetail.arch :=
  c4_platform_abi_invariant "x86_64-unknown-linux-musl" muslDetail (by decide)

/-- C5: the system mapping sends `"darwin"`, `"freebsd"`, `"openbsd"` and
`"windows"` to the variants displaying as `darwin`, `freebsd`, `openbsd`
and `win32`, and every other system string to the `unknown` variant
carrying it, never an error. -/
theorem c5_system_map :
    NodePlatform.from_str "darwin" = NodePlatform.darwin ∧
    NodePlatform.from_str "freebsd" = NodePlatform.freebsd ∧
    NodePlatform.from_str "openbsd" = NodePlatform.openbsd ∧
    NodePlatform.from_str "windows" = NodePlatform.win32 ∧
    NodePlatform.toString NodePlatform.darwin = "darwin" ∧
    NodePlatform.toString NodePlatform.freebsd = "freebsd" ∧
    NodePlatform.toString NodePlatform.openbsd = "openbsd" ∧
    NodePlatform.toString NodePlatform.win32 = "win32" ∧
    ∀ s, s ≠ "darwin" → s ≠ "freebsd" → s ≠ "openbsd" → s ≠ "windows" →
      NodePlatform.from_str s = NodePlatform.unknown s := by
  refine ⟨rfl, rfl, rfl, rfl, rfl, rfl, rfl, rfl, ?_⟩
  intro s h1 h2 h3 h4
  simp [NodePlatform.from_str, h1, h2, h3, h4]

/-- C5 witness: the fallback clause of the system mapping applied to the
concrete unrecognized system string `"android"`. -/
theorem c5_system_map_witness :
    NodePlatform.from_str "android" = NodePlatform.unknown "android" :=
  c5_system_map.2.2.2.2.2.2.2.2 "android" (by decide) (by decide) (by decide) (by decide)

/-- C6: on a system string outside the four recognized ones, the platform
is the `unknown` variant carrying it, and displaying that platform gives
the system string back verbatim. -/
theorem c6_unknown_display_identity (s : String)
    (h1 : s ≠ "darwin") (h2 : s ≠ "freebsd") (h3 : s ≠ "openbsd") (h4 : s ≠ "windows") :
    NodePlatform.from_str s = NodePlatform.unknown s ∧
    NodePlatform.toString (NodePlatform.from_str s) = s := by
  have hs : NodePlatform.from_str s = NodePlatform.unknown s := by
    simp [NodePlatform.from_str, h1, h2, h3, h4]
  refine ⟨hs, ?_⟩
  rw [hs]
  rfl

/-- C6 witness: the identity passthrough on the concrete system string
`"linux"`. -/
theorem c6_unknown_display_identity_witness :
    NodePlatform.from_str "linux" = NodePlatform.unknown "linux" ∧
    NodePlatform.toString (NodePlatform.from_str "linux") = "linux" :=
  c6_unknown_display_identity "linux" (by decide) (by decide) (by decide) (by decide)

/-- C7: parsing `"x86_64-unknown-linux-musl"` yields exactly the
descriptor with arch `x64` (displaying as `"x64"`), platform
`unknown("linux")`, abi `Some("musl")` and `platform_abi`
`"linux-x64-musl"`. -/
theorem c7_musl_round_trip :
    PlatformDetail.fromTriple "x86_64-unknown-linux-musl" =
      Except.ok { triple := "x86_64-unknown-linux-musl"
                  platform_abi := "linux-x64-musl"
                  arch := NodeArch.x64
                  platform := NodePlatform.unknown "linux"
                  abi := some "musl" } ∧
    NodeArch.toString NodeArch.x64 = "x64" := by
  decide

/-- C8: two triples with at least 3 segments that differ only in the
vendor segment parse to the same arch, platform, abi and `platform_abi`
(and the same abort when the cpu is unsupported): the vendor influences
nothing but the stored original triple string. -/
theorem c8_vendor_irrelevant (t1 t2 cpu v1 v2 sys : String) (rest : List String)
    (h1 : splitDash t1 = cpu :: v1 :: sys :: rest)
    (h2 : splitDash t2 = cpu :: v2 :: sys :: rest) :
    Except.map PlatformDetail.obs (PlatformDetail.fromTriple t1) =
      Except.map PlatformDetail.obs (PlatformDetail.fromTriple t2) := by
  simp only [PlatformDetail.fromTriple]
  rw [h1, h2, fromParts_cons3, fromParts_cons3]
  cases NodeArch.from_str cpu <;> rfl

/-- C8 witness: the vendor-indifference applied to the two concrete
triples `"x86_64-unknown-linux-gnu"` and `"x86_64-pc-linux-gnu"`. -/
theorem c8_vendor_irrelevant_witness :
    Except.map PlatformDetail.obs (PlatformDetail.fromTriple "x86_64-unknown-linux-gnu") =
      Except.map PlatformDetail.obs (PlatformDetail.fromTriple "x86_64-pc-linux-gnu") :=
  c8_vendor_irrelevant "x86_64-unknown-linux-gnu" "x86_64-pc-linux-gnu" "x86_64" "unknown"
    "pc" "linux" ["gnu"] (by decide) (by decide)

/-- C9: every target triple of `DEFAULT_TARGETS` is also an element of
`AVAILABLE_TARGETS`. -/
theorem c9_default_targets_available (t : String) (h : t ∈ DEFAULT_TARGETS) :
    t ∈ AVAILABLE_TARGETS := by
  simp only [DEFAULT_TARGETS, List.mem_cons, List.not_mem_nil, or_false] at h
  rcases h with rfl | rfl | rfl <;> decide

/-- C9 witness: the first default target is a member of both lists. -/
theorem c9_default_targets_available_witness :
    "x86_64-apple-darwin" ∈ DEFAULT_TARGETS ∧ "x86_64-apple-darwin" ∈ AVAILABLE_TARGETS :=
  ⟨by decide, c9_default_targets_available "x86_64-apple-darwin" (by decide)⟩

/-- C10: on an input with five or more dash-separated segments the
conversion behaves exactly as on its first four segments — segment 0 is
the cpu, segment 2 the system, segment 3 the abi — and the extra segments
are silently ignored: when the cpu is in the table, the parse succeeds
with those fields. -/
theorem c10_extra_segments_ignored (t cpu v sys abi seg4 : String) (rest : List String)
    (h : splitDash t = cpu :: v :: sys :: abi :: seg4 :: rest) :
    PlatformDetail.fromTriple t = PlatformDetail.fromParts t [cpu, v, sys, abi] ∧
    ∀ a, NodeArch.from_str cpu = some a →
      PlatformDetail.fromTriple t =
        Except.ok { triple := t
                    platform_abi := NodePlatform.toString (NodePlatform.from_str sys) ++ "-" ++
                      NodeArch.toString a ++ "-" ++ abi
                    arch := a
                    platform := NodePlatform.from_str sys
                    abi := some abi } := by
  constructor
  · simp only [PlatformDetail.fromTriple]
    rw [h, fromParts_cons3, fromParts_cons3]
    cases NodeArch.from_str cpu <;> rfl
  · intro a ha
    simp only [PlatformDetail.fromTriple]
    rw [h, fromParts_cons3]
    simp only [ha]
    rfl

/-- C10 witness: the five-segment input
`"x86_64-unknown-linux-musl-extra"` parses exactly as its four-segment
truncation. -/
theorem c10_extra_segments_ignored_witness :
    PlatformDetail.fromTriple "x86_64-unknown-linux-musl-extra" =
      PlatformDetail.fromParts "x86_64-unknown-linux-musl-extra"
        ["x86_64", "unknown", "linux", "musl"] :=
  (c10_extra_segments_ignored "x86_64-unknown-linux-musl-extra" "x86_64" "unknown" "linux"
    "musl" "extra" [] (by decide)).1

end NapiCli
